import Mathlib

/-
Shallow embedding of src/src/PWAInstallDemo.tsx, a React component that
drives the browser PWA-install lifecycle.  The component's React state is
the record PWAState; the browser environment (display-mode media query and
the legacy navigator standalone flag) is the record Env; the single
localStorage key "pwa_installed" is modelled as the Option String field
pwa_installed.  Each handler of the component becomes a pure function on
PWAState, returning the observable effects (prompt invocation, alert text,
page reload) alongside the new state.
-/

namespace PWAInstall

/-- Outcome carried by the userChoice promise of a BeforeInstallPromptEvent
(source line 7): the user either accepts or dismisses the install prompt. -/
inductive Outcome where
  | accepted
  | dismissed
  deriving DecidableEq

/-- The beforeinstallprompt event (source lines 5-8): the prompt action is an
effect, so the embedding keeps only the data the component reads from the
event, namely the outcome its userChoice promise will resolve to and the
platform string. -/
structure BeforeInstallPromptEvent where
  userChoiceOutcome : Outcome
  platform : String
  deriving DecidableEq

/-- The browser facts read by checkStandalone (source lines 17-22): the
result of the display-mode standalone media query and the legacy
navigator.standalone flag. -/
structure Env where
  matchMediaStandalone : Bool
  navigatorStandalone : Bool
  deriving DecidableEq

/-- React state of the component (source lines 11-14) together with the one
localStorage key the component touches: pwa_installed holds the stored value
at key "pwa_installed", none when the key is absent. -/
structure PWAState where
  deferredPrompt : Option BeforeInstallPromptEvent
  isStandalone : Bool
  isInstalled : Bool
  pwa_installed : Option String
  deriving DecidableEq

/-- checkStandalone (source lines 17-22): true when the display-mode
standalone media query matches or navigator.standalone is true.  It reads
only the current environment, never component state. -/
def checkStandalone (env : Env) : Bool :=
  env.matchMediaStandalone || env.navigatorStandalone

/-- checkInstalled (source lines 24-28): standalone, or the stored value at
key "pwa_installed" is exactly the string "true". -/
def checkInstalled (env : Env) (stored : Option String) : Bool :=
  checkStandalone env || stored == some "true"

/-- installPWA (source lines 31-43).  With no deferred prompt it returns at
once (no prompt invocation).  Otherwise it invokes the prompt, and when the
user choice resolves: on accepted it writes "true" to the storage key and
sets isInstalled; in both outcomes it clears the deferred prompt.  The
returned Bool records whether the prompt action was invoked. -/
def installPWA (s : PWAState) : PWAState × Bool :=
  match s.deferredPrompt with
  | none => (s, false)
  | some dp =>
    let s1 :=
      if dp.userChoiceOutcome = Outcome.accepted then
        { s with pwa_installed := some "true", isInstalled := true }
      else s
    ({ s1 with deferredPrompt := none }, true)

/-- Alert text shown by uninstallPWA in the standalone branch
(source lines 61-63). -/
def uninstallInstructionsAlert : String :=
  "To uninstall this PWA:\n\n• Chrome/Edge → Settings → Apps → Manage apps → Uninstall\n• Or right-click the app icon → Uninstall"

/-- Alert text shown by uninstallPWA in the non-standalone branch
(source line 65). -/
def resetClearedAlert : String :=
  "Installation status cleared. Refresh the page."

/-- Result of uninstallPWA: the new state, the alert text that was shown,
and whether window.location.reload was called. -/
structure UninstallResult where
  state : PWAState
  alertShown : String
  reloaded : Bool
  deriving DecidableEq

/-- uninstallPWA (source lines 57-68): always remove the storage key; then
branch on a fresh checkStandalone call — standalone shows the platform
uninstall instructions and does not reload, otherwise an alert is shown and
the page reloads. -/
def uninstallPWA (env : Env) (s : PWAState) : UninstallResult :=
  let s1 := { s with pwa_installed := none }
  if checkStandalone env then
    { state := s1, alertShown := uninstallInstructionsAlert, reloaded := false }
  else
    { state := s1, alertShown := resetClearedAlert, reloaded := true }

/-- handleBeforeInstall (source lines 75-78): prevent the default handling
(the returned Bool) and retain the event as the deferred prompt. -/
def handleBeforeInstall (e : BeforeInstallPromptEvent) (s : PWAState) :
    PWAState × Bool :=
  ({ s with deferredPrompt := some e }, true)

/-- handleAppInstalled (source lines 80-84): write "true" to the storage
key, set isInstalled, and discard any deferred prompt. -/
def handleAppInstalled (s : PWAState) : PWAState :=
  { s with pwa_installed := some "true", isInstalled := true,
           deferredPrompt := none }

/-- Component state as created by useState before the mount effect runs
(source lines 11-14): no deferred prompt, both flags false, storage as
found. -/
def initialState (stored : Option String) : PWAState :=
  { deferredPrompt := none, isStandalone := false, isInstalled := false,
    pwa_installed := stored }

/-- The mount effect (source lines 71-73): store the result of
checkStandalone into the isStandalone state variable and the result of
checkInstalled into isInstalled.  This is the state of the component after
an initial load. -/
def onMount (env : Env) (stored : Option String) : PWAState :=
  { initialState stored with
    isStandalone := checkStandalone env,
    isInstalled := checkInstalled env stored }

/-- The three mutually exclusive status panels of the render
(source lines 108-132). -/
inductive DisplayState where
  | standalone
  | installedBrowser
  | notInstalled
  deriving DecidableEq

/-- The status panel chosen by the render (source lines 108-132): the
isStandalone state variable picks the standalone panel, otherwise the
isInstalled state variable picks the installed-browser panel, otherwise the
not-installed panel. -/
def displayState (s : PWAState) : DisplayState :=
  if s.isStandalone then DisplayState.standalone
  else if s.isInstalled then DisplayState.installedBrowser
  else DisplayState.notInstalled

/-- Whether the install button is rendered (source line 135). -/
def installButtonShown (s : PWAState) : Bool :=
  !s.isStandalone && !s.isInstalled

/-- Whether the install button is disabled (source line 137): disabled
exactly when no deferred prompt is held. -/
def installButtonDisabled (s : PWAState) : Bool :=
  s.deferredPrompt.isNone

/-- Whether the open/reset button pair is rendered (source line 147). -/
def openResetButtonsShown (s : PWAState) : Bool :=
  s.isInstalled && !s.isStandalone

/-- Whether the standalone uninstall button is rendered (source line 158). -/
def standaloneUninstallButtonShown (s : PWAState) : Bool :=
  s.isStandalone

/-- Modelled from the spec's words for the refinement in claim C5: a display
branch that reads the current platform display-mode predicate at decision
time rather than the isStandalone value captured at initialization. -/
def displayStateSpec (env : Env) (s : PWAState) : DisplayState :=
  if checkStandalone env then DisplayState.standalone
  else if s.isInstalled then DisplayState.installedBrowser
  else DisplayState.notInstalled

/-- An environment whose display-mode media query reports standalone. -/
def envStandalone : Env :=
  { matchMediaStandalone := true, navigatorStandalone := false }

/-- An environment reporting an ordinary browser tab. -/
def envBrowser : Env :=
  { matchMediaStandalone := false, navigatorStandalone := false }

/-- A sample beforeinstallprompt event whose user choice resolves to
accepted. -/
def sampleEvent : BeforeInstallPromptEvent :=
  { userChoiceOutcome := Outcome.accepted, platform := "web" }

/-- A sample state holding a deferred prompt, as after the availability
notification fires in a fresh browser tab. -/
def sampleReadyState : PWAState :=
  { deferredPrompt := some sampleEvent, isStandalone := false,
    isInstalled := false, pwa_installed := none }

/-- A sample state of an installed app running standalone. -/
def sampleStandaloneState : PWAState :=
  { deferredPrompt := none, isStandalone := true, isInstalled := true,
    pwa_installed := some "true" }

/-- Claim C1: after an initial load, the status panel is exactly one of the
three display states, determined solely by the pair (standalone predicate,
persisted flag): standalone true shows the standalone panel regardless of
the flag; standalone false with the flag present (stored value "true")
shows the installed-browser panel; both false shows the not-installed
panel.  The disjunction records exhaustiveness over the three states. -/
theorem C1_initial_display (env : Env) (stored : Option String) :
    (displayState (onMount env stored) =
      (if checkStandalone env then DisplayState.standalone
       else if stored = some "true" then DisplayState.installedBrowser
       else DisplayState.notInstalled))
    ∧ (displayState (onMount env stored) = DisplayState.standalone
       ∨ displayState (onMount env stored) = DisplayState.installedBrowser
       ∨ displayState (onMount env stored) = DisplayState.notInstalled) := by
  constructor
  · cases h : checkStandalone env with
    | true => simp [displayState, onMount, initialState, checkInstalled, h]
    | false =>
      by_cases h2 : stored = some "true" <;>
        simp [displayState, onMount, initialState, checkInstalled, h, h2]
  · cases hd : displayState (onMount env stored) with
    | standalone => exact Or.inl rfl
    | installedBrowser => exact Or.inr (Or.inl rfl)
    | notInstalled => exact Or.inr (Or.inr rfl)

/-- Claim C2: for every state, reset removes the storage key; the reload
happens exactly when the app is not currently standalone, and in the
standalone case the platform uninstall instructions are the alert shown. -/
theorem C2_uninstall_behaviour (env : Env) (s : PWAState) :
    (uninstallPWA env s).state.pwa_installed = none
    ∧ (uninstallPWA env s).reloaded = !(checkStandalone env)
    ∧ (uninstallPWA env s).alertShown =
        (if checkStandalone env then uninstallInstructionsAlert
         else resetClearedAlert) := by
  cases h : checkStandalone env <;> simp [uninstallPWA, h]

/-- Claim C3: with a deferred prompt held, triggering install invokes the
prompt and, after the user choice resolves, clears the deferred prompt in
both outcomes; the storage key becomes "true" and isInstalled becomes true
exactly on an accepted outcome, and both are left unchanged on dismissal. -/
theorem C3_install_resolution (s : PWAState) (dp : BeforeInstallPromptEvent)
    (h : s.deferredPrompt = some dp) :
    (installPWA s).2 = true
    ∧ (installPWA s).1.deferredPrompt = none
    ∧ (installPWA s).1.pwa_installed =
        (if dp.userChoiceOutcome = Outcome.accepted then some "true"
         else s.pwa_installed)
    ∧ (installPWA s).1.isInstalled =
        (if dp.userChoiceOutcome = Outcome.accepted then true
         else s.isInstalled) := by
  cases hdp : dp.userChoiceOutcome <;> simp [installPWA, h, hdp]

/-- Witness for claim C3 at a concrete state holding an accepted prompt. -/
theorem C3_install_resolution_witness :
    sampleReadyState.deferredPrompt = some sampleEvent
    ∧ (installPWA sampleReadyState).2 = true
    ∧ (installPWA sampleReadyState).1.deferredPrompt = none
    ∧ (installPWA sampleReadyState).1.pwa_installed = some "true" := by
  refine ⟨rfl, ?_, ?_, ?_⟩
  · exact (C3_install_resolution sampleReadyState sampleEvent rfl).1
  · exact (C3_install_resolution sampleReadyState sampleEvent rfl).2.1
  · have h := (C3_install_resolution sampleReadyState sampleEvent rfl).2.2.1
    simpa [sampleEvent] using h

/-- Claim C4: whatever the prior state, the installed notification writes
"true" to the storage key, sets isInstalled, and discards any deferred
prompt. -/
theorem C4_app_installed (s : PWAState) :
    (handleAppInstalled s).pwa_installed = some "true"
    ∧ (handleAppInstalled s).isInstalled = true
    ∧ (handleAppInstalled s).deferredPrompt = none := by
  simp [handleAppInstalled]

/-- Claim C5 counterexample: the display branch does not read the current
platform predicate.  Initialize while the media query reports standalone;
if the current environment later reports a browser tab, the rendered panel
(computed from the captured isStandalone state variable) is the standalone
panel, while a display branch reading the current predicate would show the
installed-browser panel, so the two disagree. -/
theorem C5_display_uses_captured_flag :
    displayState (onMount envStandalone none) = DisplayState.standalone
    ∧ displayStateSpec envBrowser (onMount envStandalone none) =
        DisplayState.installedBrowser
    ∧ (displayState (onMount envStandalone none) =
        displayStateSpec envBrowser (onMount envStandalone none)) = False := by
  refine ⟨by decide, by decide, eq_false (by decide)⟩

/-- Claim C5 amended: checkStandalone reads only the current environment
and the reset branch calls it afresh, so the reset branch is decided by the
platform predicate at call time; the display branch, however, reads the
isStandalone state variable captured by the mount effect, so it follows the
predicate as it was at initialization. -/
theorem C5_standalone_recompute (envInit envNow : Env)
    (stored : Option String) :
    (onMount envInit stored).isStandalone = checkStandalone envInit
    ∧ (uninstallPWA envNow (onMount envInit stored)).reloaded =
        !(checkStandalone envNow)
    ∧ (displayState (onMount envInit stored) = DisplayState.standalone
        ↔ checkStandalone envInit = true) := by
  refine ⟨rfl, (C2_uninstall_behaviour envNow (onMount envInit stored)).2.1, ?_⟩
  cases h : checkStandalone envInit with
  | true => simp [displayState, onMount, initialState, h]
  | false =>
    by_cases h2 : stored = some "true" <;>
      simp [displayState, onMount, initialState, checkInstalled, h, h2]

/-- Claim C6: the isInstalled flag computed at initialization is true
exactly when the standalone predicate holds or the stored value at the
persisted key is "true". -/
theorem C6_installed_iff (env : Env) (stored : Option String) :
    (onMount env stored).isInstalled = true
    ↔ (checkStandalone env = true ∨ stored = some "true") := by
  simp [onMount, initialState, checkInstalled]

/-- Claim C7: with no deferred prompt held, triggering install returns the
state unchanged and does not invoke the prompt. -/
theorem C7_install_noop (s : PWAState) (h : s.deferredPrompt = none) :
    installPWA s = (s, false) := by
  simp [installPWA, h]

/-- Witness for claim C7 at the fresh pre-mount state. -/
theorem C7_install_noop_witness :
    (initialState none).deferredPrompt = none
    ∧ installPWA (initialState none) = (initialState none, false) :=
  ⟨rfl, C7_install_noop (initialState none) rfl⟩

/-- Claim C8: from a fresh load (no storage entry, not standalone) the
not-installed panel is shown with the install button rendered and disabled;
after the availability notification the button is enabled; triggering
install with an accepted choice writes "true" to the storage key and the
panel becomes the installed-browser one. -/
theorem C8_fresh_install_scenario (env : Env) (e : BeforeInstallPromptEvent)
    (henv : checkStandalone env = false)
    (hout : e.userChoiceOutcome = Outcome.accepted) :
    displayState (onMount env none) = DisplayState.notInstalled
    ∧ installButtonShown (onMount env none) = true
    ∧ installButtonDisabled (onMount env none) = true
    ∧ installButtonDisabled (handleBeforeInstall e (onMount env none)).1 =
        false
    ∧ (installPWA (handleBeforeInstall e (onMount env none)).1).1.pwa_installed
        = some "true"
    ∧ displayState (installPWA (handleBeforeInstall e (onMount env none)).1).1
        = DisplayState.installedBrowser := by
  refine ⟨?_, ?_, ?_, ?_, ?_, ?_⟩ <;>
    simp [displayState, installButtonShown, installButtonDisabled,
      handleBeforeInstall, installPWA, onMount, initialState, checkInstalled,
      henv, hout]

/-- Witness for claim C8 in a concrete browser-tab environment with an
accepted sample event. -/
theorem C8_fresh_install_scenario_witness :
    checkStandalone envBrowser = false
    ∧ sampleEvent.userChoiceOutcome = Outcome.accepted
    ∧ displayState (onMount envBrowser none) = DisplayState.notInstalled
    ∧ displayState
        (installPWA (handleBeforeInstall sampleEvent
          (onMount envBrowser none)).1).1 = DisplayState.installedBrowser := by
  refine ⟨rfl, rfl, ?_, ?_⟩
  · exact (C8_fresh_install_scenario envBrowser sampleEvent rfl rfl).1
  · exact (C8_fresh_install_scenario envBrowser sampleEvent rfl rfl).2.2.2.2.2

/-- Claim C9: every write of the persisted key writes exactly the string
"true" (both the installed notification and an accepted install prompt),
and the installed computation holds exactly when standalone or the stored
value is exactly "true" — so any other stored value counts as not installed
when not standalone. -/
theorem C9_sentinel_value (env : Env) (s : PWAState)
    (e : BeforeInstallPromptEvent) (stored : Option String) :
    (handleAppInstalled s).pwa_installed = some "true"
    ∧ (installPWA { s with deferredPrompt := some ({ e with userChoiceOutcome := Outcome.accepted }) }).1.pwa_installed = some "true"
    ∧ (checkInstalled env stored = true
        ↔ (checkStandalone env = true ∨ stored = some "true")) := by
  refine ⟨rfl, ?_, ?_⟩
  · simp [installPWA]
  · simp [checkInstalled]

/-- Claim C10: when the app is currently standalone, reset changes only the
persisted storage key — the in-memory flags, the deferred prompt, the
status panel and every button of the rendered view are unchanged — and no
reload occurs. -/
theorem C10_standalone_reset_frame (env : Env) (s : PWAState)
    (h : checkStandalone env = true) :
    (uninstallPWA env s).state.pwa_installed = none
    ∧ (uninstallPWA env s).state.isStandalone = s.isStandalone
    ∧ (uninstallPWA env s).state.isInstalled = s.isInstalled
    ∧ (uninstallPWA env s).state.deferredPrompt = s.deferredPrompt
    ∧ displayState (uninstallPWA env s).state = displayState s
    ∧ installButtonShown (uninstallPWA env s).state = installButtonShown s
    ∧ installButtonDisabled (uninstallPWA env s).state =
        installButtonDisabled s
    ∧ openResetButtonsShown (uninstallPWA env s).state =
        openResetButtonsShown s
    ∧ standaloneUninstallButtonShown (uninstallPWA env s).state =
        standaloneUninstallButtonShown s
    ∧ (uninstallPWA env s).reloaded = false := by
  simp [uninstallPWA, h, displayState, installButtonShown,
    installButtonDisabled, openResetButtonsShown,
    standaloneUninstallButtonShown]

/-- Witness for claim C10 at a concrete standalone environment and state. -/
theorem C10_standalone_reset_frame_witness :
    checkStandalone envStandalone = true
    ∧ (uninstallPWA envStandalone sampleStandaloneState).state.pwa_installed
        = none
    ∧ (uninstallPWA envStandalone sampleStandaloneState).reloaded = false := by
  refine ⟨rfl, ?_, ?_⟩
  · exact (C10_standalone_reset_frame envStandalone sampleStandaloneState
      rfl).1
  · exact (C10_standalone_reset_frame envStandalone sampleStandaloneState
      rfl).2.2.2.2.2.2.2.2.2

end PWAInstall
